import Mathlib

set_option linter.unusedVariables false

/-!
Shallow embedding of the frontend HTTP access layer of the repository
(src/frontend/src/services/api.js): the auth request interceptor, the
error-normalizing response interceptor, the rate-limit retry helper, and
the resource operation wrappers, together with proofs of the specified
properties of the pipeline.
-/

namespace Api

/-- JSON-like values for request and response bodies. Server-provided
error fields are modelled as strings, the only shape this layer reads
from them. -/
inductive JVal where
  | null : JVal
  | bool : Bool → JVal
  | num : Int → JVal
  | str : String → JVal
  | arr : List JVal → JVal
  | obj : List (String × JVal) → JVal
deriving Repr

/-- First binding of a key among the fields of an object literal. -/
def lookupField : List (String × JVal) → String → Option JVal
  | [], _ => none
  | (k, v) :: rest, key => if k = key then some v else lookupField rest key

/-- Property access on a value: a field of an object, undefined (none)
otherwise. Access on null, which raises a TypeError in JS, is handled
at each use site before this function is consulted. -/
def JVal.getField : JVal → String → Option JVal
  | JVal.obj fields, key => lookupField fields key
  | _, _ => none

/-- JS truthiness of a value. -/
def JVal.truthy : JVal → Bool
  | JVal.null => false
  | JVal.bool b => b
  | JVal.num n => n != 0
  | JVal.str s => s != ""
  | JVal.arr _ => true
  | JVal.obj _ => true

/-- The server-provided error field when it is a truthy string: the
contribution of the expression pattern reading the error field of the
body with a fixed fallback after the or-operator. -/
def errString (body : JVal) : Option String :=
  match body.getField "error" with
  | some (JVal.str s) => if s = "" then none else some s
  | _ => none

/-- Fallback message for status 400. -/
def msg400Fallback : String := "Datos inválidos"

/-- Fixed message for status 401. -/
def msg401 : String := "Sesión expirada. Por favor, inicia sesión nuevamente"

/-- Fixed message for status 403. -/
def msg403 : String := "No tienes permisos para realizar esta acción"

/-- Fixed message for status 404. -/
def msg404 : String := "Recurso no encontrado"

/-- Fallback message for status 422. -/
def msg422Fallback : String := "Datos de entrada inválidos"

/-- Fixed message for status 429. -/
def msg429 : String := "Demasiadas solicitudes. Reintentando automáticamente..."

/-- Fixed message for status 500. -/
def msg500 : String := "Error interno del servidor. Inténtalo más tarde"

/-- Fixed message for a network timeout (code ECONNABORTED). -/
def msgTimeout : String := "La solicitud ha tardado demasiado. Verifica tu conexión"

/-- Fixed message for an unreachable network. -/
def msgUnreachable : String := "Error de conexión. Verifica tu conexión a internet"

/-- Fixed generic message when no classification matched. -/
def msgUnexpected : String := "Ha ocurrido un error inesperado"

/-- Ambient browser state read and written by the layer: the two
localStorage keys, the current pathname, and the navigations performed
so far by assignments to the location. -/
structure BrowserState where
  token : Option String
  user : Option String
  pathname : String
  navs : List String
deriving Repr, DecidableEq

/-- An outgoing request configuration: its header map. -/
structure RequestConfig where
  headers : List (String × String)
deriving Repr, DecidableEq

/-- Header assignment: overwrite the binding of a key, or append it. -/
def setHeader : List (String × String) → String → String → List (String × String)
  | [], key, v => [(key, v)]
  | (k, w) :: rest, key, v =>
      if k = key then (key, v) :: rest else (k, w) :: setHeader rest key v

/-- Header lookup. -/
def lookupHeader : List (String × String) → String → Option String
  | [], _ => none
  | (k, v) :: rest, key => if k = key then some v else lookupHeader rest key

/-- The request interceptor: reads the token from localStorage and, when
it is truthy (present and non-empty), sets the Authorization header to
the bearer form; otherwise the configuration passes unchanged. -/
def requestInterceptor (st : BrowserState) (config : RequestConfig) : RequestConfig :=
  match st.token with
  | some token =>
      if token = "" then config
      else { config with
              headers := setHeader config.headers "Authorization" ("Bearer " ++ token) }
  | none => config

/-- An HTTP response as the transport delivers it: status and parsed body. -/
structure Response where
  status : Nat
  data : JVal
deriving Repr

/-- A raw transport rejection: a server response with an error status, a
network failure carrying its error code (ECONNABORTED on timeout), or an
error carrying neither a response nor a request. -/
inductive AxiosError where
  | http : Response → AxiosError
  | network : String → AxiosError
  | other : AxiosError
deriving Repr

/-- The error produced by the response interceptor: the original error
spread together with the derived user message. -/
structure EnhancedError where
  original : AxiosError
  userMessage : String
deriving Repr

/-- The status read back off an enhanced error through the optional
response field, which the spread preserves from the original error. -/
def EnhancedError.respStatus (e : EnhancedError) : Option Nat :=
  match e.original with
  | AxiosError.http r => some r.status
  | _ => none

/-- The response interceptor on the rejection path: derive the user
message from the status table, perform the 401 side effects on the
browser state, and return the enhanced error. -/
def normalize (st : BrowserState) (e : AxiosError) : BrowserState × EnhancedError :=
  match e with
  | AxiosError.http r =>
      let msg : String :=
        if r.status = 400 then (errString r.data).getD msg400Fallback
        else if r.status = 401 then msg401
        else if r.status = 403 then msg403
        else if r.status = 404 then msg404
        else if r.status = 422 then (errString r.data).getD msg422Fallback
        else if r.status = 429 then msg429
        else if r.status = 500 then msg500
        else (errString r.data).getD ("Error " ++ toString r.status)
      let st1 : BrowserState :=
        if r.status = 401 then
          let cleared : BrowserState := { st with token := none, user := none }
          if cleared.pathname ≠ "/login" then
            { cleared with navs := cleared.navs ++ ["/login"] }
          else cleared
        else st
      (st1, { original := e, userMessage := msg })
  | AxiosError.network code =>
      (st, { original := e,
             userMessage := if code = "ECONNABORTED" then msgTimeout else msgUnreachable })
  | AxiosError.other => (st, { original := e, userMessage := msgUnexpected })

/-- The status-to-message table transcribed from the words of the
specification, section 4.3, as a function of the raw failure alone: the
comparison point for the normalizer. Statuses 400 and 422 take the
server-provided error field with their two distinct fixed fallbacks;
401, 403, 404, 429 and 500 take fixed messages; any other status takes
the server-provided error field with the generic status fallback; the
two network reasons take their fixed messages; an unclassifiable
failure takes the generic unexpected-error message. -/
def specMessage : AxiosError → String
  | AxiosError.http r =>
      if r.status = 400 then (errString r.data).getD msg400Fallback
      else if r.status = 401 then msg401
      else if r.status = 403 then msg403
      else if r.status = 404 then msg404
      else if r.status = 422 then (errString r.data).getD msg422Fallback
      else if r.status = 429 then msg429
      else if r.status = 500 then msg500
      else (errString r.data).getD ("Error " ++ toString r.status)
  | AxiosError.network code =>
      if code = "ECONNABORTED" then msgTimeout else msgUnreachable
  | AxiosError.other => msgUnexpected

/-- One outcome of the transport for a given attempt. -/
inductive TransportOutcome where
  | ok : Response → TransportOutcome
  | err : AxiosError → TransportOutcome
deriving Repr

/-- State threaded through a pipeline run: the browser state, the number
of transport invocations made so far, and the backoff delays awaited so
far, in order. -/
structure SysState where
  browser : BrowserState
  calls : Nat
  waits : List Nat
deriving Repr

/-- One transport attempt through the interceptors: the environment maps
the attempt count to an outcome; a success passes through the response
interceptor unchanged, a failure is normalized. -/
def attemptOnce (server : Nat → TransportOutcome) (s : SysState) :
    SysState × Except EnhancedError Response :=
  let s1 : SysState := { s with calls := s.calls + 1 }
  match server s.calls with
  | TransportOutcome.ok r => (s1, Except.ok r)
  | TransportOutcome.err e =>
      let p := normalize s1.browser e
      ({ s1 with browser := p.1 }, Except.error p.2)

/-- The loop of the retry helper, at iteration index i with
fuel = retries - i iterations left: each iteration attempts the
operation; a rejection whose optional response status is 429, with the
index strictly before the last, waits delay times two to the i and
continues; any other rejection is rethrown; falling off the loop
returns undefined (modelled as ok none). -/
def retryLoop (fn : SysState → SysState × Except EnhancedError Response)
    (retries delay : Nat) :
    Nat → Nat → SysState → SysState × Except EnhancedError (Option Response)
  | _, 0, s => (s, Except.ok none)
  | i, fuel + 1, s =>
      match fn s with
      | (s1, Except.ok r) => (s1, Except.ok (some r))
      | (s1, Except.error e) =>
          if e.respStatus = some 429 ∧ i < retries - 1 then
            retryLoop fn retries delay (i + 1) fuel
              { s1 with waits := s1.waits ++ [delay * 2 ^ i] }
          else (s1, Except.error e)

/-- The retry helper: run the loop from index zero with fuel equal to
the retry bound. -/
def retryRequest (fn : SysState → SysState × Except EnhancedError Response)
    (retries delay : Nat) (s : SysState) :
    SysState × Except EnhancedError (Option Response) :=
  retryLoop fn retries delay 0 retries s

/-- The generic fallback payload thrown when no structured server
payload exists. -/
def connFallback : JVal := JVal.obj [("error", JVal.str "Error de conexión")]

/-- The value a resource operation rethrows to its caller: the data of
the optional response of the caught error when truthy, else the generic
connection-error fallback. -/
def thrownPayload (e : EnhancedError) : JVal :=
  match e.original with
  | AxiosError.http r => if r.data.truthy then r.data else connFallback
  | _ => connFallback

/-- Caller-visible outcome of a resource operation: a returned value,
possibly undefined, or a thrown payload. -/
inductive OpResult where
  | ok : Option JVal → OpResult
  | thrown : JVal → OpResult
deriving Repr

/-- The shared body of every non-delete resource operation: the
transport call wrapped in the retry helper with its default arguments,
then the data field of the response body returned on success; any throw
is caught and the structured payload, with the fallback, is rethrown.
An undefined result of the loop, or a null body, makes the unwrapping
raise a TypeError that the same catch turns into the fallback. -/
def runResourceOp (server : Nat → TransportOutcome) (s : SysState) : SysState × OpResult :=
  match retryRequest (attemptOnce server) 3 1000 s with
  | (s1, Except.ok (some r)) =>
      match r.data with
      | JVal.null => (s1, OpResult.thrown connFallback)
      | body => (s1, OpResult.ok (body.getField "data"))
  | (s1, Except.ok none) => (s1, OpResult.thrown connFallback)
  | (s1, Except.error e) => (s1, OpResult.thrown (thrownPayload e))

/-- The shared body of every delete operation: same wrapping, but the
raw envelope, the whole response body, is returned without unwrapping. -/
def runDeleteOp (server : Nat → TransportOutcome) (s : SysState) : SysState × OpResult :=
  match retryRequest (attemptOnce server) 3 1000 s with
  | (s1, Except.ok (some r)) => (s1, OpResult.ok (some r.data))
  | (s1, Except.ok none) => (s1, OpResult.thrown connFallback)
  | (s1, Except.error e) => (s1, OpResult.thrown (thrownPayload e))

/-- The body of the login operation: a single transport attempt with no
retry wrapper, then the data field of the body; the catch rethrows the
structured payload or the fallback. -/
def runLoginOp (server : Nat → TransportOutcome) (s : SysState) : SysState × OpResult :=
  match attemptOnce server s with
  | (s1, Except.ok r) =>
      match r.data with
      | JVal.null => (s1, OpResult.thrown connFallback)
      | body => (s1, OpResult.ok (body.getField "data"))
  | (s1, Except.error e) => (s1, OpResult.thrown (thrownPayload e))

/-!
The resource operation catalogue. Each wrapper keeps the name and the
parameters of its source function; the parameters shape the request
path, query or body, which the abstract transport environment consumes,
so the pipeline behavior depends only on the environment and the state.
-/

/-- POST on the login path with the credentials as body; no retry wrapper. -/
def login (email password : String) (server : Nat → TransportOutcome) (s : SysState) :
    SysState × OpResult := runLoginOp server s

/-- GET on the apartments path. -/
def getApartments (server : Nat → TransportOutcome) (s : SysState) : SysState × OpResult :=
  runResourceOp server s

/-- POST on the apartments path. -/
def createApartment (apartmentData : JVal) (server : Nat → TransportOutcome) (s : SysState) :
    SysState × OpResult := runResourceOp server s

/-- PUT on the apartments path with the id. -/
def updateApartment (id : Int) (apartmentData : JVal) (server : Nat → TransportOutcome)
    (s : SysState) : SysState × OpResult := runResourceOp server s

/-- DELETE on the apartments path with the id; returns the raw envelope. -/
def deleteApartment (id : Int) (server : Nat → TransportOutcome) (s : SysState) :
    SysState × OpResult := runDeleteOp server s

/-- POST on the payments path. -/
def createPayment (paymentData : JVal) (server : Nat → TransportOutcome) (s : SysState) :
    SysState × OpResult := runResourceOp server s

/-- GET on the payments path with an optional month query. -/
def getPayments (month : Option String) (server : Nat → TransportOutcome) (s : SysState) :
    SysState × OpResult := runResourceOp server s

/-- PUT on the pay subpath of a payment. -/
def registerPaymentAsPaid (paymentId : Int) (server : Nat → TransportOutcome) (s : SysState) :
    SysState × OpResult := runResourceOp server s

/-- PUT on the payments path with the id. -/
def updatePayment (id : Int) (paymentData : JVal) (server : Nat → TransportOutcome)
    (s : SysState) : SysState × OpResult := runResourceOp server s

/-- DELETE on the payments path with the id; returns the raw envelope. -/
def deletePayment (id : Int) (server : Nat → TransportOutcome) (s : SysState) :
    SysState × OpResult := runDeleteOp server s

/-- GET on the users path. -/
def getUsers (server : Nat → TransportOutcome) (s : SysState) : SysState × OpResult :=
  runResourceOp server s

/-- GET on the maintenance path. -/
def getEvents (server : Nat → TransportOutcome) (s : SysState) : SysState × OpResult :=
  runResourceOp server s

/-- POST on the maintenance path. -/
def createEvent (payload : JVal) (server : Nat → TransportOutcome) (s : SysState) :
    SysState × OpResult := runResourceOp server s

/-- DELETE on the maintenance path with the id; returns the raw envelope. -/
def deleteEvent (id : Int) (server : Nat → TransportOutcome) (s : SysState) :
    SysState × OpResult := runDeleteOp server s

/-- PUT on the maintenance path with the id. -/
def updateEvent (id : Int) (payload : JVal) (server : Nat → TransportOutcome) (s : SysState) :
    SysState × OpResult := runResourceOp server s

/-- PUT on the status subpath of a maintenance event. -/
def updateMaintenanceStatus (id : Int) (status : String) (server : Nat → TransportOutcome)
    (s : SysState) : SysState × OpResult := runResourceOp server s

/-- POST on the users path. -/
def createUser (userData : JVal) (server : Nat → TransportOutcome) (s : SysState) :
    SysState × OpResult := runResourceOp server s

/-- PUT on the users path with the id. -/
def updateUser (id : Int) (userData : JVal) (server : Nat → TransportOutcome) (s : SysState) :
    SysState × OpResult := runResourceOp server s

/-- DELETE on the users path with the id; returns the raw envelope. -/
def deleteUser (id : Int) (server : Nat → TransportOutcome) (s : SysState) :
    SysState × OpResult := runDeleteOp server s

/-- GET on the notifications path. -/
def getNotifications (server : Nat → TransportOutcome) (s : SysState) : SysState × OpResult :=
  runResourceOp server s

/-- POST on the notifications path. -/
def createNotification (notificationData : JVal) (server : Nat → TransportOutcome)
    (s : SysState) : SysState × OpResult := runResourceOp server s

/-- PUT on the notifications path with the id. -/
def updateNotification (id : Int) (notificationData : JVal) (server : Nat → TransportOutcome)
    (s : SysState) : SysState × OpResult := runResourceOp server s

/-- PUT on the read subpath of a notification. -/
def markNotificationAsRead (id : Int) (server : Nat → TransportOutcome) (s : SysState) :
    SysState × OpResult := runResourceOp server s

/-- DELETE on the notifications path with the id; returns the raw envelope. -/
def deleteNotification (id : Int) (server : Nat → TransportOutcome) (s : SysState) :
    SysState × OpResult := runDeleteOp server s

/-- GET on the my-reports subpath of damage reports. -/
def getDamageReports (server : Nat → TransportOutcome) (s : SysState) : SysState × OpResult :=
  runResourceOp server s

/-- POST on the damage reports path. -/
def createDamageReport (reportData : JVal) (server : Nat → TransportOutcome) (s : SysState) :
    SysState × OpResult := runResourceOp server s

/-- PUT on the damage reports path with the id. -/
def updateDamageReport (id : Int) (reportData : JVal) (server : Nat → TransportOutcome)
    (s : SysState) : SysState × OpResult := runResourceOp server s

/-- DELETE on the damage reports path with the id; returns the raw envelope. -/
def deleteDamageReport (id : Int) (server : Nat → TransportOutcome) (s : SysState) :
    SysState × OpResult := runDeleteOp server s

/-- PUT on the status subpath of a damage report. -/
def updateDamageReportStatus (id : Int) (status : String) (server : Nat → TransportOutcome)
    (s : SysState) : SysState × OpResult := runResourceOp server s

/-- GET on the guests path. -/
def getAirbnbGuests (server : Nat → TransportOutcome) (s : SysState) : SysState × OpResult :=
  runResourceOp server s

/-- GET on the active guests subpath. -/
def getActiveAirbnbGuests (server : Nat → TransportOutcome) (s : SysState) :
    SysState × OpResult := runResourceOp server s

/-- POST on the guests path. -/
def createAirbnbGuest (guestData : JVal) (server : Nat → TransportOutcome) (s : SysState) :
    SysState × OpResult := runResourceOp server s

/-- PUT on the guests path with the id. -/
def updateAirbnbGuest (id : Int) (guestData : JVal) (server : Nat → TransportOutcome)
    (s : SysState) : SysState × OpResult := runResourceOp server s

/-- PUT on the checkin subpath of a guest. -/
def checkinAirbnbGuest (id : Int) (server : Nat → TransportOutcome) (s : SysState) :
    SysState × OpResult := runResourceOp server s

/-- PUT on the checkout subpath of a guest. -/
def checkoutAirbnbGuest (id : Int) (server : Nat → TransportOutcome) (s : SysState) :
    SysState × OpResult := runResourceOp server s

/-- DELETE on the guests path with the id; returns the raw envelope. -/
def deleteAirbnbGuest (id : Int) (server : Nat → TransportOutcome) (s : SysState) :
    SysState × OpResult := runDeleteOp server s

/-!
Concrete fixtures used by the scenario theorems and witnesses.
-/

/-- A browser state away from the login surface with no session. -/
def initBrowser : BrowserState :=
  { token := none, user := none, pathname := "/", navs := [] }

/-- The starting pipeline state over that browser state. -/
def initState : SysState := { browser := initBrowser, calls := 0, waits := [] }

/-- A browser state on a dashboard path holding a live session. -/
def b401 : BrowserState :=
  { token := some "tok", user := some "u", pathname := "/dashboard", navs := [] }

/-- A browser state storing the empty string as its token. -/
def emptyTokenBrowser : BrowserState :=
  { token := some "", user := none, pathname := "/", navs := [] }

/-- The base request configuration with the fixed content type header. -/
def baseConfig : RequestConfig :=
  { headers := [("Content-Type", "application/json")] }

/-- An environment answering 429 on the first two attempts and then a
200 envelope whose data is the one-element list of the object with id
one. -/
def server429Twice : Nat → TransportOutcome := fun n =>
  if n < 2 then TransportOutcome.err (AxiosError.http { status := 429, data := JVal.null })
  else TransportOutcome.ok
    { status := 200,
      data := JVal.obj [("data", JVal.arr [JVal.obj [("id", JVal.num 1)]])] }

/-- An environment answering 404 with the body holding the error field
"not found" on every attempt. -/
def server404 : Nat → TransportOutcome := fun _ =>
  TransportOutcome.err
    (AxiosError.http { status := 404, data := JVal.obj [("error", JVal.str "not found")] })

/-- An environment answering 429 with a null body on every attempt. -/
def serverAlways429 : Nat → TransportOutcome := fun _ =>
  TransportOutcome.err (AxiosError.http { status := 429, data := JVal.null })

/-- An environment answering 200 with the envelope holding the number
seven in its data field on every attempt. -/
def server200 : Nat → TransportOutcome := fun _ =>
  TransportOutcome.ok { status := 200, data := JVal.obj [("data", JVal.num 7)] }

/-- True when a value is an object carrying a truthy string in a field
named after the user message of the failure descriptors. -/
def hasNonEmptyUserMessage (v : JVal) : Bool :=
  match v.getField "userMessage" with
  | some (JVal.str s) => s != ""
  | _ => false

/-!
Helper lemmas shared by the claim theorems.
-/

theorem errString_ne_empty {body : JVal} {t : String}
    (h : errString body = some t) : t ≠ "" := by
  unfold errString at h
  split at h
  · split at h
    · simp at h
    · next hne => rw [Option.some_inj] at h; subst h; assumption
  · simp at h

theorem errString_getD_ne_empty (body : JVal) (fb : String) (hfb : fb ≠ "") :
    (errString body).getD fb ≠ "" := by
  cases h : errString body with
  | none => simpa using hfb
  | some s => simpa using errString_ne_empty h

theorem error_status_msg_ne_empty (t : String) : ("Error " ++ t) ≠ "" := by
  intro h
  have h6 : ("Error ".length : Nat) = 6 := rfl
  have hl : ("Error " ++ t).length = 0 := by rw [h]; rfl
  rw [String.length_append, h6] at hl
  omega

theorem normalize_userMessage_ne_empty (st : BrowserState) (e : AxiosError) :
    ((normalize st e).2).userMessage ≠ "" := by
  cases e with
  | http r =>
      show (if r.status = 400 then (errString r.data).getD msg400Fallback
        else if r.status = 401 then msg401
        else if r.status = 403 then msg403
        else if r.status = 404 then msg404
        else if r.status = 422 then (errString r.data).getD msg422Fallback
        else if r.status = 429 then msg429
        else if r.status = 500 then msg500
        else (errString r.data).getD ("Error " ++ toString r.status)) ≠ ""
      split_ifs
      · exact errString_getD_ne_empty _ _ (by decide)
      · decide
      · decide
      · decide
      · exact errString_getD_ne_empty _ _ (by decide)
      · decide
      · decide
      · exact errString_getD_ne_empty _ _ (error_status_msg_ne_empty _)
  | network code =>
      show (if code = "ECONNABORTED" then msgTimeout else msgUnreachable) ≠ ""
      split_ifs <;> decide
  | other =>
      show msgUnexpected ≠ ""
      decide

theorem attemptOnce_calls (server : Nat → TransportOutcome) (s : SysState) :
    ((attemptOnce server s).1).calls = s.calls + 1 := by
  unfold attemptOnce
  cases server s.calls <;> rfl

theorem attemptOnce_waits (server : Nat → TransportOutcome) (s : SysState) :
    ((attemptOnce server s).1).waits = s.waits := by
  unfold attemptOnce
  cases server s.calls <;> rfl

theorem runLoginOp_fst (server : Nat → TransportOutcome) (s : SysState) :
    (runLoginOp server s).1 = (attemptOnce server s).1 := by
  unfold runLoginOp
  rcases h : attemptOnce server s with ⟨s1, res⟩
  cases res with
  | ok r => rcases r with ⟨rs, rdata⟩; cases rdata <;> rfl
  | error e => rfl

theorem runResourceOp_ok (server : Nat → TransportOutcome) (s st1 : SysState)
    (r : Response) (d : JVal)
    (h : retryRequest (attemptOnce server) 3 1000 s = (st1, Except.ok (some r)))
    (hd : r.data.getField "data" = some d) :
    runResourceOp server s = (st1, OpResult.ok (some d)) := by
  unfold runResourceOp
  rw [h]
  show (match r.data with
    | JVal.null => (st1, OpResult.thrown connFallback)
    | body => (st1, OpResult.ok (body.getField "data"))) = (st1, OpResult.ok (some d))
  cases hrd : r.data <;> rw [hrd] at hd <;> simp_all [JVal.getField]

theorem runDeleteOp_ok (server : Nat → TransportOutcome) (s st1 : SysState)
    (r : Response)
    (h : retryRequest (attemptOnce server) 3 1000 s = (st1, Except.ok (some r))) :
    runDeleteOp server s = (st1, OpResult.ok (some r.data)) := by
  unfold runDeleteOp
  rw [h]

/-!
The claim theorems.
-/

/-- C1, counterexample: against an environment answering 404 with the
body holding the error field "not found", getApartments fails, and the
value reaching the caller is that raw server body, which carries no
user message field at all: an unnormalized failure reaches the caller,
refuting the claim that every failure surfaced to a caller carries a
non-empty user message. -/
theorem userMessage_not_reaching_caller_cex :
    (getApartments server404 initState).2 =
      OpResult.thrown (JVal.obj [("error", JVal.str "not found")]) ∧
    hasNonEmptyUserMessage (JVal.obj [("error", JVal.str "not found")]) = false :=
  ⟨rfl, rfl⟩

/-- C1, amended: every failure descriptor produced by the error
normalizer carries a non-empty user message, but a resource operation
whose wrapped retry call fails rethrows only the structured payload of
the failure, the server body when truthy or the generic
connection-error fallback, so the user message itself is not part of
the value reaching the caller. -/
theorem resourceOp_rethrows_structured_payload :
    (∀ (st : BrowserState) (e : AxiosError),
      ((normalize st e).2).userMessage ≠ "") ∧
    (∀ (server : Nat → TransportOutcome) (s st1 : SysState) (e : EnhancedError),
      retryRequest (attemptOnce server) 3 1000 s = (st1, Except.error e) →
      getApartments server s = (st1, OpResult.thrown (thrownPayload e))) := by
  refine ⟨normalize_userMessage_ne_empty, ?_⟩
  intro server s st1 e h
  show runResourceOp server s = (st1, OpResult.thrown (thrownPayload e))
  unfold runResourceOp
  rw [h]

/-- C1, witness for the amended theorem at concrete inputs. -/
theorem resourceOp_rethrows_structured_payload_witness :
    ((normalize initBrowser AxiosError.other).2).userMessage ≠ "" ∧
    getApartments server404 initState =
      ({ browser := initBrowser, calls := 1, waits := [] },
        OpResult.thrown (JVal.obj [("error", JVal.str "not found")])) :=
  ⟨resourceOp_rethrows_structured_payload.1 initBrowser AxiosError.other,
   resourceOp_rethrows_structured_payload.2 server404 initState
     { browser := initBrowser, calls := 1, waits := [] }
     { original := AxiosError.http
         { status := 404, data := JVal.obj [("error", JVal.str "not found")] },
       userMessage := msg404 } rfl⟩

/-- C2: when an attempt fails with a normalized failure whose optional
response status is 429 and the zero-based index is strictly before the
last allowed attempt, the retry loop waits delay times two to the index
and retries at the next index; in particular getApartments against an
environment answering 429 twice and then a 200 envelope with the
one-element id list returns that list after exactly three transport
invocations with backoff gaps of 1000 then 2000 milliseconds. -/
theorem retry_backoff_and_scenario :
    (∀ (fn : SysState → SysState × Except EnhancedError Response)
        (retries delay i fuel : Nat) (s s1 : SysState) (e : EnhancedError),
      fn s = (s1, Except.error e) → e.respStatus = some 429 → i < retries - 1 →
      retryLoop fn retries delay i (fuel + 1) s =
        retryLoop fn retries delay (i + 1) fuel
          { s1 with waits := s1.waits ++ [delay * 2 ^ i] }) ∧
    getApartments server429Twice initState =
      ({ browser := initBrowser, calls := 3, waits := [1000, 2000] },
        OpResult.ok (some (JVal.arr [JVal.obj [("id", JVal.num 1)]]))) := by
  constructor
  · intro fn retries delay i fuel s s1 e hfn h429 hi
    simp [retryLoop, hfn, h429, hi]
  · rfl

/-- C2, witness: the backoff step applied to the first attempt of the
concrete 429-twice scenario, together with the scenario itself. -/
theorem retry_backoff_and_scenario_witness :
    retryLoop (attemptOnce server429Twice) 3 1000 0 3 initState =
      retryLoop (attemptOnce server429Twice) 3 1000 1 2
        { browser := initBrowser, calls := 1, waits := [1000] } ∧
    getApartments server429Twice initState =
      ({ browser := initBrowser, calls := 3, waits := [1000, 2000] },
        OpResult.ok (some (JVal.arr [JVal.obj [("id", JVal.num 1)]]))) :=
  ⟨retry_backoff_and_scenario.1 (attemptOnce server429Twice) 3 1000 0 2 initState
      { browser := initBrowser, calls := 1, waits := [] }
      { original := AxiosError.http { status := 429, data := JVal.null },
        userMessage := msg429 } rfl rfl (by decide),
   retry_backoff_and_scenario.2⟩

/-- C3: for every browser state and raw failure, the user message the
normalizer derives is exactly the one given by the status-to-message
table transcribed from the specification, the original failure is
preserved in the descriptor, and the two fixed fallbacks for 400 and
422 are distinct; the normalizer is a total function, so it never
throws and always yields a descriptor. -/
theorem normalize_follows_spec_table (st : BrowserState) (e : AxiosError) :
    ((normalize st e).2).userMessage = specMessage e ∧
    ((normalize st e).2).original = e ∧
    (msg400Fallback == msg422Fallback) = false := by
  refine ⟨?_, ?_, by decide⟩
  · cases e <;> rfl
  · cases e <;> rfl

/-- C4: normalizing a 401 failure clears the stored token and user, and
a navigation to the login surface is appended exactly when the current
pathname is not already the login surface; when it is, the session is
still cleared and the navigations stay as they were. -/
theorem unauthorized_clears_session_and_redirects (st : BrowserState) (r : Response)
    (h : r.status = 401) :
    ((normalize st (AxiosError.http r)).1).token = none ∧
    ((normalize st (AxiosError.http r)).1).user = none ∧
    (((normalize st (AxiosError.http r)).1).navs = st.navs ++ ["/login"] ↔
      st.pathname ≠ "/login") ∧
    (st.pathname = "/login" → ((normalize st (AxiosError.http r)).1).navs = st.navs) := by
  have hst : (normalize st (AxiosError.http r)).1 =
      (if r.status = 401 then
        if st.pathname ≠ "/login" then
          { st with token := none, user := none, navs := st.navs ++ ["/login"] }
        else { st with token := none, user := none }
      else st) := rfl
  rw [h] at hst
  rw [if_pos rfl] at hst
  by_cases hp : st.pathname = "/login"
  · rw [if_neg (not_not_intro hp)] at hst
    refine ⟨by rw [hst], by rw [hst], ?_, fun _ => by rw [hst]⟩
    rw [hst]
    constructor
    · intro heq
      have hlen := congrArg List.length heq
      simp at hlen
    · intro hne
      exact absurd hp hne
  · rw [if_pos hp] at hst
    exact ⟨by rw [hst], by rw [hst],
      ⟨fun _ => hp, fun _ => by rw [hst]⟩, fun hcon => absurd hcon hp⟩

/-- C4, witness: a 401 from a state on a dashboard path with a live
session. -/
theorem unauthorized_clears_session_and_redirects_witness :
    ((normalize b401 (AxiosError.http { status := 401, data := JVal.null })).1).token
      = none ∧
    ((normalize b401 (AxiosError.http { status := 401, data := JVal.null })).1).user
      = none ∧
    (((normalize b401 (AxiosError.http { status := 401, data := JVal.null })).1).navs
        = b401.navs ++ ["/login"] ↔ b401.pathname ≠ "/login") ∧
    (b401.pathname = "/login" →
      ((normalize b401 (AxiosError.http { status := 401, data := JVal.null })).1).navs
        = b401.navs) :=
  unauthorized_clears_session_and_redirects b401 { status := 401, data := JVal.null } rfl

/-- C5: when an attempt fails with a failure whose optional response
status is anything other than 429, the retry helper returns right after
that single attempt, with the state exactly as that attempt left it, so
no retry happens and no delay is recorded; a network failure carries no
status at all, so it always falls under this case. -/
theorem non_429_failure_single_attempt
    (fn : SysState → SysState × Except EnhancedError Response)
    (retries delay : Nat) (s s1 : SysState) (e : EnhancedError)
    (hfn : fn s = (s1, Except.error e)) (h429 : e.respStatus ≠ some 429)
    (hr : 0 < retries) :
    retryRequest fn retries delay s = (s1, Except.error e) ∧
    (∀ (st : BrowserState) (code : String),
      ((normalize st (AxiosError.network code)).2).respStatus = none) := by
  constructor
  · obtain ⟨n, rfl⟩ : ∃ n, retries = n + 1 := ⟨retries - 1, by omega⟩
    show retryLoop fn (n + 1) delay 0 (n + 1) s = (s1, Except.error e)
    simp [retryLoop, hfn, h429]
  · intro st code
    rfl

/-- C5, witness: the single-attempt propagation on the concrete 404
environment, and the statuslessness of a concrete timeout failure. -/
theorem non_429_failure_single_attempt_witness :
    retryRequest (attemptOnce server404) 3 1000 initState =
      ({ browser := initBrowser, calls := 1, waits := [] },
        Except.error
          { original := AxiosError.http
              { status := 404, data := JVal.obj [("error", JVal.str "not found")] },
            userMessage := msg404 }) ∧
    ((normalize initBrowser (AxiosError.network "ECONNABORTED")).2).respStatus = none :=
  ⟨(non_429_failure_single_attempt (attemptOnce server404) 3 1000 initState
      { browser := initBrowser, calls := 1, waits := [] }
      { original := AxiosError.http
          { status := 404, data := JVal.obj [("error", JVal.str "not found")] },
        userMessage := msg404 } rfl (by decide) (by decide)).1,
   (non_429_failure_single_attempt (attemptOnce server404) 3 1000 initState
      { browser := initBrowser, calls := 1, waits := [] }
      { original := AxiosError.http
          { status := 404, data := JVal.obj [("error", JVal.str "not found")] },
        userMessage := msg404 } rfl (by decide) (by decide)).2
     initBrowser "ECONNABORTED"⟩

/-- C6: against an environment failing every attempt with 429, the
retry helper with its defaults makes exactly three transport
invocations, waits 1000 then 2000 milliseconds, and returns the
normalized failure of the third attempt unchanged, never an undefined
result. -/
theorem retry_exhaustion_propagates_last_failure
    (server : Nat → TransportOutcome) (s : SysState)
    (h : ∀ n, ∃ body, server n =
      TransportOutcome.err (AxiosError.http { status := 429, data := body })) :
    ∃ body, server (s.calls + 2) =
        TransportOutcome.err (AxiosError.http { status := 429, data := body }) ∧
      retryRequest (attemptOnce server) 3 1000 s =
        ({ browser := s.browser, calls := s.calls + 3, waits := s.waits ++ [1000, 2000] },
          Except.error
            { original := AxiosError.http { status := 429, data := body },
              userMessage := msg429 }) := by
  obtain ⟨b0, h0⟩ := h s.calls
  obtain ⟨b1, h1⟩ := h (s.calls + 1)
  obtain ⟨b2, h2⟩ := h (s.calls + 1 + 1)
  refine ⟨b2, h2, ?_⟩
  show retryLoop (attemptOnce server) 3 1000 0 3 s =
    ({ browser := s.browser, calls := s.calls + 3, waits := s.waits ++ [1000, 2000] },
      Except.error
        { original := AxiosError.http { status := 429, data := b2 },
          userMessage := msg429 })
  simp [retryLoop, attemptOnce, h0, h1, h2, normalize, EnhancedError.respStatus]

/-- C6, witness: the always-429 environment from the starting state. -/
theorem retry_exhaustion_propagates_last_failure_witness :
    ∃ body, serverAlways429 2 =
        TransportOutcome.err (AxiosError.http { status := 429, data := body }) ∧
      retryRequest (attemptOnce serverAlways429) 3 1000 initState =
        ({ browser := initBrowser, calls := 3, waits := [1000, 2000] },
          Except.error
            { original := AxiosError.http { status := 429, data := body },
              userMessage := msg429 }) :=
  retry_exhaustion_propagates_last_failure serverAlways429 initState
    (fun n => ⟨JVal.null, rfl⟩)

/-- C7: when the wrapped retry call succeeds with a response whose body
carries a data field, every non-delete resource operation returns
exactly that data field, untransformed, while every delete operation
returns the raw body, the whole envelope. -/
theorem success_unwraps_envelope_deletes_raw
    (server : Nat → TransportOutcome) (s st1 : SysState) (r : Response) (d v : JVal)
    (i : Int) (m : Option String) (t : String)
    (h : retryRequest (attemptOnce server) 3 1000 s = (st1, Except.ok (some r)))
    (hd : r.data.getField "data" = some d) :
    getApartments server s = (st1, OpResult.ok (some d)) ∧
    createApartment v server s = (st1, OpResult.ok (some d)) ∧
    updateApartment i v server s = (st1, OpResult.ok (some d)) ∧
    createPayment v server s = (st1, OpResult.ok (some d)) ∧
    getPayments m server s = (st1, OpResult.ok (some d)) ∧
    registerPaymentAsPaid i server s = (st1, OpResult.ok (some d)) ∧
    updatePayment i v server s = (st1, OpResult.ok (some d)) ∧
    getUsers server s = (st1, OpResult.ok (some d)) ∧
    getEvents server s = (st1, OpResult.ok (some d)) ∧
    createEvent v server s = (st1, OpResult.ok (some d)) ∧
    updateEvent i v server s = (st1, OpResult.ok (some d)) ∧
    updateMaintenanceStatus i t server s = (st1, OpResult.ok (some d)) ∧
    createUser v server s = (st1, OpResult.ok (some d)) ∧
    updateUser i v server s = (st1, OpResult.ok (some d)) ∧
    getNotifications server s = (st1, OpResult.ok (some d)) ∧
    createNotification v server s = (st1, OpResult.ok (some d)) ∧
    updateNotification i v server s = (st1, OpResult.ok (some d)) ∧
    markNotificationAsRead i server s = (st1, OpResult.ok (some d)) ∧
    getDamageReports server s = (st1, OpResult.ok (some d)) ∧
    createDamageReport v server s = (st1, OpResult.ok (some d)) ∧
    updateDamageReport i v server s = (st1, OpResult.ok (some d)) ∧
    updateDamageReportStatus i t server s = (st1, OpResult.ok (some d)) ∧
    getAirbnbGuests server s = (st1, OpResult.ok (some d)) ∧
    getActiveAirbnbGuests server s = (st1, OpResult.ok (some d)) ∧
    createAirbnbGuest v server s = (st1, OpResult.ok (some d)) ∧
    updateAirbnbGuest i v server s = (st1, OpResult.ok (some d)) ∧
    checkinAirbnbGuest i server s = (st1, OpResult.ok (some d)) ∧
    checkoutAirbnbGuest i server s = (st1, OpResult.ok (some d)) ∧
    deleteApartment i server s = (st1, OpResult.ok (some r.data)) ∧
    deletePayment i server s = (st1, OpResult.ok (some r.data)) ∧
    deleteUser i server s = (st1, OpResult.ok (some r.data)) ∧
    deleteEvent i server s = (st1, OpResult.ok (some r.data)) ∧
    deleteNotification i server s = (st1, OpResult.ok (some r.data)) ∧
    deleteDamageReport i server s = (st1, OpResult.ok (some r.data)) ∧
    deleteAirbnbGuest i server s = (st1, OpResult.ok (some r.data)) := by
  have hro := runResourceOp_ok server s st1 r d h hd
  have hdo := runDeleteOp_ok server s st1 r h
  exact ⟨hro, hro, hro, hro, hro, hro, hro, hro, hro, hro, hro, hro, hro, hro,
    hro, hro, hro, hro, hro, hro, hro, hro, hro, hro, hro, hro, hro, hro,
    hdo, hdo, hdo, hdo, hdo, hdo, hdo⟩

/-- C7, witness: a 200 envelope holding the number seven. -/
theorem success_unwraps_envelope_deletes_raw_witness :
    getApartments server200 initState =
      ({ browser := initBrowser, calls := 1, waits := [] },
        OpResult.ok (some (JVal.num 7))) ∧
    createApartment JVal.null server200 initState =
      ({ browser := initBrowser, calls := 1, waits := [] },
        OpResult.ok (some (JVal.num 7))) ∧
    updateApartment 5 JVal.null server200 initState =
      ({ browser := initBrowser, calls := 1, waits := [] },
        OpResult.ok (some (JVal.num 7))) ∧
    createPayment JVal.null server200 initState =
      ({ browser := initBrowser, calls := 1, waits := [] },
        OpResult.ok (some (JVal.num 7))) ∧
    getPayments none server200 initState =
      ({ browser := initBrowser, calls := 1, waits := [] },
        OpResult.ok (some (JVal.num 7))) ∧
    registerPaymentAsPaid 5 server200 initState =
      ({ browser := initBrowser, calls := 1, waits := [] },
        OpResult.ok (some (JVal.num 7))) ∧
    updatePayment 5 JVal.null server200 initState =
      ({ browser := initBrowser, calls := 1, waits := [] },
        OpResult.ok (some (JVal.num 7))) ∧
    getUsers server200 initState =
      ({ browser := initBrowser, calls := 1, waits := [] },
        OpResult.ok (some (JVal.num 7))) ∧
    getEvents server200 initState =
      ({ browser := initBrowser, calls := 1, waits := [] },
        OpResult.ok (some (JVal.num 7))) ∧
    createEvent JVal.null server200 initState =
      ({ browser := initBrowser, calls := 1, waits := [] },
        OpResult.ok (some (JVal.num 7))) ∧
    updateEvent 5 JVal.null server200 initState =
      ({ browser := initBrowser, calls := 1, waits := [] },
        OpResult.ok (some (JVal.num 7))) ∧
    updateMaintenanceStatus 5 "done" server200 initState =
      ({ browser := initBrowser, calls := 1, waits := [] },
        OpResult.ok (some (JVal.num 7))) ∧
    createUser JVal.null server200 initState =
      ({ browser := initBrowser, calls := 1, waits := [] },
        OpResult.ok (some (JVal.num 7))) ∧
    updateUser 5 JVal.null server200 initState =
      ({ browser := initBrowser, calls := 1, waits := [] },
        OpResult.ok (some (JVal.num 7))) ∧
    getNotifications server200 initState =
      ({ browser := initBrowser, calls := 1, waits := [] },
        OpResult.ok (some (JVal.num 7))) ∧
    createNotification JVal.null server200 initState =
      ({ browser := initBrowser, calls := 1, waits := [] },
        OpResult.ok (some (JVal.num 7))) ∧
    updateNotification 5 JVal.null server200 initState =
      ({ browser := initBrowser, calls := 1, waits := [] },
        OpResult.ok (some (JVal.num 7))) ∧
    markNotificationAsRead 5 server200 initState =
      ({ browser := initBrowser, calls := 1, waits := [] },
        OpResult.ok (some (JVal.num 7))) ∧
    getDamageReports server200 initState =
      ({ browser := initBrowser, calls := 1, waits := [] },
        OpResult.ok (some (JVal.num 7))) ∧
    createDamageReport JVal.null server200 initState =
      ({ browser := initBrowser, calls := 1, waits := [] },
        OpResult.ok (some (JVal.num 7))) ∧
    updateDamageReport 5 JVal.null server200 initState =
      ({ browser := initBrowser, calls := 1, waits := [] },
        OpResult.ok (some (JVal.num 7))) ∧
    updateDamageReportStatus 5 "done" server200 initState =
      ({ browser := initBrowser, calls := 1, waits := [] },
        OpResult.ok (some (JVal.num 7))) ∧
    getAirbnbGuests server200 initState =
      ({ browser := initBrowser, calls := 1, waits := [] },
        OpResult.ok (some (JVal.num 7))) ∧
    getActiveAirbnbGuests server200 initState =
      ({ browser := initBrowser, calls := 1, waits := [] },
        OpResult.ok (some (JVal.num 7))) ∧
    createAirbnbGuest JVal.null server200 initState =
      ({ browser := initBrowser, calls := 1, waits := [] },
        OpResult.ok (some (JVal.num 7))) ∧
    updateAirbnbGuest 5 JVal.null server200 initState =
      ({ browser := initBrowser, calls := 1, waits := [] },
        OpResult.ok (some (JVal.num 7))) ∧
    checkinAirbnbGuest 5 server200 initState =
      ({ browser := initBrowser, calls := 1, waits := [] },
        OpResult.ok (some (JVal.num 7))) ∧
    checkoutAirbnbGuest 5 server200 initState =
      ({ browser := initBrowser, calls := 1, waits := [] },
        OpResult.ok (some (JVal.num 7))) ∧
    deleteApartment 5 server200 initState =
      ({ browser := initBrowser, calls := 1, waits := [] },
        OpResult.ok (some (JVal.obj [("data", JVal.num 7)]))) ∧
    deletePayment 5 server200 initState =
      ({ browser := initBrowser, calls := 1, waits := [] },
        OpResult.ok (some (JVal.obj [("data", JVal.num 7)]))) ∧
    deleteUser 5 server200 initState =
      ({ browser := initBrowser, calls := 1, waits := [] },
        OpResult.ok (some (JVal.obj [("data", JVal.num 7)]))) ∧
    deleteEvent 5 server200 initState =
      ({ browser := initBrowser, calls := 1, waits := [] },
        OpResult.ok (some (JVal.obj [("data", JVal.num 7)]))) ∧
    deleteNotification 5 server200 initState =
      ({ browser := initBrowser, calls := 1, waits := [] },
        OpResult.ok (some (JVal.obj [("data", JVal.num 7)]))) ∧
    deleteDamageReport 5 server200 initState =
      ({ browser := initBrowser, calls := 1, waits := [] },
        OpResult.ok (some (JVal.obj [("data", JVal.num 7)]))) ∧
    deleteAirbnbGuest 5 server200 initState =
      ({ browser := initBrowser, calls := 1, waits := [] },
        OpResult.ok (some (JVal.obj [("data", JVal.num 7)]))) :=
  success_unwraps_envelope_deletes_raw server200 initState
    { browser := initBrowser, calls := 1, waits := [] }
    { status := 200, data := JVal.obj [("data", JVal.num 7)] }
    (JVal.num 7) JVal.null 5 none "done" rfl rfl

/-- C8: deleting apartment five against an environment answering 404
with the body holding the error field "not found" fails after a single
attempt with that raw body as the thrown payload, and the failure
descriptor the normalizer built for that response carries the fixed
resource-not-found message with the original failure preserved. -/
theorem deleteApartment_404_scenario :
    deleteApartment 5 server404 initState =
      ({ browser := initBrowser, calls := 1, waits := [] },
        OpResult.thrown (JVal.obj [("error", JVal.str "not found")])) ∧
    (normalize initBrowser
        (AxiosError.http
          { status := 404, data := JVal.obj [("error", JVal.str "not found")] })).2 =
      { original := AxiosError.http
          { status := 404, data := JVal.obj [("error", JVal.str "not found")] },
        userMessage := msg404 } ∧
    msg404 = "Recurso no encontrado" :=
  ⟨rfl, rfl, rfl⟩

/-- C9, counterexample: with the empty string stored as the token, a
token is present in the session store, yet the interceptor returns the
configuration unchanged and adds no Authorization header, refuting the
claim that the header is added whenever a token is present. -/
theorem auth_header_empty_token_cex :
    emptyTokenBrowser.token = some "" ∧
    requestInterceptor emptyTokenBrowser baseConfig = baseConfig ∧
    lookupHeader (requestInterceptor emptyTokenBrowser baseConfig).headers
      "Authorization" = none :=
  ⟨rfl, rfl, rfl⟩

/-- C9, amended: the interceptor adds the bearer Authorization header
exactly when the stored token is truthy, present and non-empty; when
the token is absent, or present but empty, the request configuration is
returned unchanged. -/
theorem auth_header_truthy_token (st : BrowserState) (config : RequestConfig) :
    (∀ t, st.token = some t → t ≠ "" →
      requestInterceptor st config =
        { config with
          headers := setHeader config.headers "Authorization" ("Bearer " ++ t) }) ∧
    (st.token = none → requestInterceptor st config = config) ∧
    (st.token = some "" → requestInterceptor st config = config) := by
  refine ⟨?_, ?_, ?_⟩
  · intro t ht hne
    unfold requestInterceptor
    rw [ht]
    simp [hne]
  · intro ht
    unfold requestInterceptor
    rw [ht]
  · intro ht
    unfold requestInterceptor
    rw [ht]
    simp

/-- C9, witness for the amended theorem: a concrete non-empty token and
a concrete absent token. -/
theorem auth_header_truthy_token_witness :
    requestInterceptor
        { token := some "abc", user := none, pathname := "/", navs := [] } baseConfig =
      { baseConfig with
        headers := setHeader baseConfig.headers "Authorization" ("Bearer " ++ "abc") } ∧
    requestInterceptor initBrowser baseConfig = baseConfig :=
  ⟨(auth_header_truthy_token
      { token := some "abc", user := none, pathname := "/", navs := [] } baseConfig).1
      "abc" rfl (by decide),
   (auth_header_truthy_token initBrowser baseConfig).2.1 rfl⟩

/-- C10: the login operation performs exactly one transport attempt and
records no delay, whatever the environment answers; in particular when
the environment answers 429 on that attempt, the failure propagates at
once to the caller as the thrown structured payload, with no backoff
and no re-invocation. -/
theorem login_single_attempt_no_retry (email password : String)
    (server : Nat → TransportOutcome) (s : SysState) :
    ((login email password server s).1).calls = s.calls + 1 ∧
    ((login email password server s).1).waits = s.waits ∧
    (∀ body, server s.calls =
        TransportOutcome.err (AxiosError.http { status := 429, data := body }) →
      (login email password server s).2 =
        OpResult.thrown (if body.truthy then body else connFallback)) := by
  refine ⟨?_, ?_, ?_⟩
  · show ((runLoginOp server s).1).calls = s.calls + 1
    rw [runLoginOp_fst]
    exact attemptOnce_calls server s
  · show ((runLoginOp server s).1).waits = s.waits
    rw [runLoginOp_fst]
    exact attemptOnce_waits server s
  · intro body hb
    show (runLoginOp server s).2 = OpResult.thrown (if body.truthy then body else connFallback)
    simp [runLoginOp, attemptOnce, hb, normalize, thrownPayload]

/-- C10, witness: login against the always-429 environment. -/
theorem login_single_attempt_no_retry_witness :
    ((login "e" "p" serverAlways429 initState).1).calls = initState.calls + 1 ∧
    ((login "e" "p" serverAlways429 initState).1).waits = initState.waits ∧
    (login "e" "p" serverAlways429 initState).2 =
      OpResult.thrown (if JVal.null.truthy then JVal.null else connFallback) :=
  ⟨(login_single_attempt_no_retry "e" "p" serverAlways429 initState).1,
   (login_single_attempt_no_retry "e" "p" serverAlways429 initState).2.1,
   (login_single_attempt_no_retry "e" "p" serverAlways429 initState).2.2 JVal.null rfl⟩

end Api
